import Mathlib

/-!
Shallow embedding of the movie-catalog CRUD service: the data-access layer
(`src/crud/movies.py`), the request/response schemas (`src/schemas/movies.py`)
and the HTTP routes (`src/routes/movies.py`), together with theorems settling
the specification claims about pagination, the get-or-create Reconciler,
create/update/delete semantics and error mapping.

Machine state is a relational store modelled as lists of rows; fallible code
returns `Except`.  Python floats carried by score/budget/revenue are modelled
as rationals (they are only stored and compared, never computed with), and
calendar dates as integers (days).
-/

namespace MovieApp

/-- Modelled from the spec: `MovieStatusEnum` lives in the repository's
`database/models.py`, which is not part of the provided sources; the spec
describes a closed vocabulary such as Released/Planned/Rumored. -/
inductive MovieStatus
  | released
  | planned
  | rumored
  deriving DecidableEq, Repr

/-- Country row: surrogate id, natural key `code`, optional display `name`.
The `code` column is an `Option` because `create_movie` passes the payload's
optional country straight to `_get_or_create`. -/
structure CountryRow where
  id : Nat
  code : Option String
  name : Option String
  deriving DecidableEq, Repr

/-- Genre / Actor / Language row: surrogate id plus natural key `name`. -/
structure NamedRow where
  id : Nat
  name : String
  deriving DecidableEq, Repr

/-- Movie row together with its foreign key to Country and its join-table
rows (the many-to-many association rows are carried as id lists, so deleting
the movie row deletes exactly those association rows with it). -/
structure Movie where
  id : Nat
  name : String
  date : Int
  score : Rat
  overview : String
  status : MovieStatus
  budget : Rat
  revenue : Rat
  countryId : Option Nat
  genreIds : List Nat
  actorIds : List Nat
  languageIds : List Nat
  deriving DecidableEq, Repr

/-- The relational store: one table per entity, a generator for surrogate ids,
and a counter of committed transactions (used to express that the Reconciler
flushes without committing). -/
structure DB where
  movies : List Movie
  countries : List CountryRow
  genres : List NamedRow
  actors : List NamedRow
  languages : List NamedRow
  nextId : Nat
  commits : Nat
  deriving DecidableEq, Repr

/-- Typed failures raised by the data-access layer, including the Python
runtime errors that the buggy call sites raise. -/
inductive PyErr
  | movieNotFound (msg : String)
  | movieAlreadyExists (msg : String)
  | attributeError (msg : String)
  | typeError (msg : String)
  | validationError (msg : String)
  | multipleResultsFound
  deriving DecidableEq, Repr

/-- Embeds `_get_or_create(db, model, name=key)` (src/crud/movies.py lines
19-33) at the call shape used for Genre/Actor/Language: select the rows whose
`name` column equals the key (`scalar_one_or_none` raises when more than one
row matches), return a found row unchanged, otherwise add a row carrying
exactly the key field and flush it (no commit). -/
def getOrCreateNamed (table : List NamedRow) (nid : Nat) (key : String) :
    Except PyErr (NamedRow × List NamedRow × Nat) :=
  match table.filter (fun r => r.name == key) with
  | [] => Except.ok (⟨nid, key⟩, table ++ [⟨nid, key⟩], nid + 1)
  | [r] => Except.ok (r, table, nid)
  | _ => Except.error PyErr.multipleResultsFound

/-- Embeds `_get_or_create(db, CountryModel, code=code)` (src/crud/movies.py
lines 19-33) at the call shape used for Country: the key column is `code` and
the looked-up value may be null (`code == None` selects rows with null code).
A created row has only the key field set, so its display name is null. -/
def getOrCreateCountry (table : List CountryRow) (nid : Nat) (code : Option String) :
    Except PyErr (CountryRow × List CountryRow × Nat) :=
  match table.filter (fun r => r.code == code) with
  | [] => Except.ok (⟨nid, code, none⟩, table ++ [⟨nid, code, none⟩], nid + 1)
  | [r] => Except.ok (r, table, nid)
  | _ => Except.error PyErr.multipleResultsFound

/-- The Reconciler run against the store for Country: only the countries table
and the id generator may change; no commit happens. -/
def resolveCountry (db : DB) (code : Option String) : Except PyErr (CountryRow × DB) :=
  match getOrCreateCountry db.countries db.nextId code with
  | Except.ok (r, t, n) => Except.ok (r, { db with countries := t, nextId := n })
  | Except.error e => Except.error e

/-- The Reconciler run against the store for Genre. -/
def resolveGenre (db : DB) (key : String) : Except PyErr (NamedRow × DB) :=
  match getOrCreateNamed db.genres db.nextId key with
  | Except.ok (r, t, n) => Except.ok (r, { db with genres := t, nextId := n })
  | Except.error e => Except.error e

/-- The Reconciler run against the store for Actor. -/
def resolveActor (db : DB) (key : String) : Except PyErr (NamedRow × DB) :=
  match getOrCreateNamed db.actors db.nextId key with
  | Except.ok (r, t, n) => Except.ok (r, { db with actors := t, nextId := n })
  | Except.error e => Except.error e

/-- The Reconciler run against the store for Language. -/
def resolveLanguage (db : DB) (key : String) : Except PyErr (NamedRow × DB) :=
  match getOrCreateNamed db.languages db.nextId key with
  | Except.ok (r, t, n) => Except.ok (r, { db with languages := t, nextId := n })
  | Except.error e => Except.error e

/-- Embeds crud `get_movie_by_id` (src/crud/movies.py lines 36-53): select the
movie with the given id (relations eagerly loaded; here they are part of the
row) and raise `MovieNotFoundException` when there is none. -/
def get_movie_by_id (movieId : Nat) (db : DB) : Except PyErr Movie :=
  match db.movies.find? (fun m => m.id == movieId) with
  | some m => Except.ok m
  | none =>
      Except.error (PyErr.movieNotFound
        ("Movie with ID " ++ toString movieId ++ " does not exist."))

/-- Insert a movie into a list sorted by ascending id. -/
def insertById (m : Movie) : List Movie → List Movie
  | [] => [m]
  | x :: xs => if m.id ≤ x.id then m :: x :: xs else x :: insertById m xs

/-- Sort movies by ascending id, the ordering `get_movies_page` requests. -/
def sortById : List Movie → List Movie
  | [] => []
  | x :: xs => insertById x (sortById xs)

/-- Embeds crud `get_movies_page` (src/crud/movies.py lines 64-87): count all
movie rows, then select them ordered by id with the given offset and limit. -/
def get_movies_page (db : DB) (off limit : Nat) : List Movie × Nat :=
  (((sortById db.movies).drop off).take limit, db.movies.length)

/-- Post-validation create payload, the field set of `MovieCreateSchema`
(src/schemas/movies.py lines 43-54). -/
structure MovieCreatePayload where
  name : String
  date : Int
  score : Rat
  overview : String
  status : MovieStatus
  budget : Rat
  revenue : Rat
  country : Option String
  genres : List String
  actors : List String
  languages : List String
  deriving DecidableEq, Repr

/-- Embeds the `MovieCreateSchema` constraints (src/schemas/movies.py lines
43-64): name 1-255 characters, score 0-100, budget and revenue nonnegative,
country either absent or 2-5 characters, and the validator rejecting dates
later than today plus 365 days. -/
def validCreatePayload (today : Int) (p : MovieCreatePayload) : Bool :=
  (1 ≤ p.name.length && p.name.length ≤ 255)
  && (0 ≤ p.score && p.score ≤ 100)
  && (0 ≤ p.budget)
  && (0 ≤ p.revenue)
  && (match p.country with
      | none => true
      | some c => 2 ≤ c.length && c.length ≤ 5)
  && (p.date ≤ today + 365)

/-- Embeds crud `create_movie` (src/crud/movies.py lines 90-154).  Its first
statement is `await db.execute(select(...)...).scalar_one_or_none()`: the call
`db.execute(...)` yields a coroutine object and the attribute access
`.scalar_one_or_none` happens before the await, so every call raises
`AttributeError` here, before the session is touched.  The duplicate check,
the Reconciler calls and the insert on lines 99-154 are unreachable (were they
reached, line 146 would also pass the unknown keyword `genre=` to
`MovieModel`). -/
def create_movie (_payload : MovieCreatePayload) (_db : DB) : Except PyErr (Movie × DB) :=
  Except.error (PyErr.attributeError
    "coroutine object has no attribute scalar_one_or_none")

/-- Keys of the dict accepted by crud `update_movie`. -/
inductive UKey
  | name
  | date
  | score
  | overview
  | status
  | budget
  | revenue
  | country
  | genres
  | actors
  | languages
  deriving DecidableEq, Repr

/-- Values of the dict accepted by crud `update_movie` (Python is untyped
here, so the value alternatives mirror what the payload can carry). -/
inductive UVal
  | null
  | str (s : String)
  | num (q : Rat)
  | intVal (d : Int)
  | stat (st : MovieStatus)
  | strList (xs : List String)
  deriving DecidableEq, Repr

/-- Embeds the `related_objects` accumulation loop of crud `update_movie`
(src/crud/movies.py lines 183-186): resolve each name in order through the
Reconciler, threading the table and the id generator. -/
def resolveNames (table : List NamedRow) (nid : Nat) (names : List String) :
    Except PyErr (List NamedRow × List NamedRow × Nat) :=
  match names with
  | [] => Except.ok ([], table, nid)
  | key :: rest =>
    match getOrCreateNamed table nid key with
    | Except.error e => Except.error e
    | Except.ok (r, t1, i1) =>
      match resolveNames t1 i1 rest with
      | Except.error e => Except.error e
      | Except.ok (rs, t2, i2) => Except.ok (r :: rs, t2, i2)

/-- Models `db.add(movie)` followed by `db.commit()` at the end of crud
`update_movie`: the mutated movie row replaces its stored version and the
transaction is committed. -/
def commitMovie (m : Movie) (db : DB) : DB :=
  { db with movies := db.movies.map (fun x => if x.id = m.id then m else x),
            commits := db.commits + 1 }

/-- Embeds one iteration of the `for key, value in movie_data.items()` loop of
crud `update_movie` (src/crud/movies.py lines 175-196): null values are
skipped; for a related key holding a list the whole association is replaced by
freshly resolved rows; for the scalar `country` key the row is resolved by
code; for a related key holding a non-list the code falls into
`_get_or_create(db, model, code=None)` and (modelled from the spec: Genre,
Actor and Language have no `code` column) `getattr` raises AttributeError;
plain attribute keys are overwritten via `setattr`. -/
def updateStep (mdb : Movie × DB) (item : UKey × UVal) : Except PyErr (Movie × DB) :=
  match item with
  | (_, UVal.null) => Except.ok mdb
  | (UKey.country, UVal.str s) =>
    match resolveCountry mdb.2 (some s) with
    | Except.error e => Except.error e
    | Except.ok (r, db1) => Except.ok ({ mdb.1 with countryId := some r.id }, db1)
  | (UKey.country, UVal.strList _) =>
    Except.error (PyErr.typeError "cannot assign a list to the scalar country relationship")
  | (UKey.country, _) =>
    Except.error (PyErr.typeError "country value must be a string")
  | (UKey.genres, UVal.strList xs) =>
    match resolveNames mdb.2.genres mdb.2.nextId xs with
    | Except.error e => Except.error e
    | Except.ok (rs, t, n) =>
      Except.ok ({ mdb.1 with genreIds := rs.map (fun r => r.id) },
                 { mdb.2 with genres := t, nextId := n })
  | (UKey.genres, _) =>
    Except.error (PyErr.attributeError "type object GenreModel has no attribute code")
  | (UKey.actors, UVal.strList xs) =>
    match resolveNames mdb.2.actors mdb.2.nextId xs with
    | Except.error e => Except.error e
    | Except.ok (rs, t, n) =>
      Except.ok ({ mdb.1 with actorIds := rs.map (fun r => r.id) },
                 { mdb.2 with actors := t, nextId := n })
  | (UKey.actors, _) =>
    Except.error (PyErr.attributeError "type object ActorModel has no attribute code")
  | (UKey.languages, UVal.strList xs) =>
    match resolveNames mdb.2.languages mdb.2.nextId xs with
    | Except.error e => Except.error e
    | Except.ok (rs, t, n) =>
      Except.ok ({ mdb.1 with languageIds := rs.map (fun r => r.id) },
                 { mdb.2 with languages := t, nextId := n })
  | (UKey.languages, _) =>
    Except.error (PyErr.attributeError "type object LanguageModel has no attribute code")
  | (UKey.name, UVal.str s) => Except.ok ({ mdb.1 with name := s }, mdb.2)
  | (UKey.name, _) => Except.error (PyErr.typeError "invalid value for attribute name")
  | (UKey.date, UVal.intVal d) => Except.ok ({ mdb.1 with date := d }, mdb.2)
  | (UKey.date, _) => Except.error (PyErr.typeError "invalid value for attribute date")
  | (UKey.score, UVal.num q) => Except.ok ({ mdb.1 with score := q }, mdb.2)
  | (UKey.score, _) => Except.error (PyErr.typeError "invalid value for attribute score")
  | (UKey.overview, UVal.str s) => Except.ok ({ mdb.1 with overview := s }, mdb.2)
  | (UKey.overview, _) => Except.error (PyErr.typeError "invalid value for attribute overview")
  | (UKey.status, UVal.stat st) => Except.ok ({ mdb.1 with status := st }, mdb.2)
  | (UKey.status, _) => Except.error (PyErr.typeError "invalid value for attribute status")
  | (UKey.budget, UVal.num q) => Except.ok ({ mdb.1 with budget := q }, mdb.2)
  | (UKey.budget, _) => Except.error (PyErr.typeError "invalid value for attribute budget")
  | (UKey.revenue, UVal.num q) => Except.ok ({ mdb.1 with revenue := q }, mdb.2)
  | (UKey.revenue, _) => Except.error (PyErr.typeError "invalid value for attribute revenue")

/-- Embeds crud `update_movie` (src/crud/movies.py lines 157-201) applied to a
dict, the type its signature `movie_data: dict` declares; dict items are
iterated in insertion order.  The `if not movie` re-check on lines 163-166 is
dead because `get_movie_by_id` already raised.  After the loop the movie is
added and the transaction committed. -/
def update_movie (movieId : Nat) (items : List (UKey × UVal)) (db : DB) :
    Except PyErr (Movie × DB) :=
  match get_movie_by_id movieId db with
  | Except.error e => Except.error e
  | Except.ok movie =>
    match items.foldlM updateStep (movie, db) with
    | Except.error e => Except.error e
    | Except.ok (m, db1) => Except.ok (m, commitMovie m db1)

/-- Embeds crud `delete_movie` (src/crud/movies.py lines 204-212): fetch the
movie (raising `MovieNotFoundException` when absent), delete it and commit.
The association rows travel with the movie row; modelled from the spec for the
missing `database/models.py`: there is no cascade onto the lookup tables,
which deletion leaves untouched. -/
def delete_movie (movieId : Nat) (db : DB) : Except PyErr DB :=
  match get_movie_by_id movieId db with
  | Except.error e => Except.error e
  | Except.ok m =>
    Except.ok { db with movies := db.movies.filter (fun x => x.id != m.id),
                        commits := db.commits + 1 }

/-- Item of the list response, the field set of `MovieResponseSchema`
(src/schemas/movies.py lines 24-32). -/
structure MovieItem where
  id : Nat
  name : String
  date : Int
  score : Rat
  overview : String
  deriving DecidableEq, Repr

/-- Projection of a movie row onto the list response schema. -/
def toMovieItem (m : Movie) : MovieItem :=
  ⟨m.id, m.name, m.date, m.score, m.overview⟩

/-- The body of `MovieListResponseSchema` (src/schemas/movies.py lines 35-40). -/
structure MovieListResponse where
  movies : List MovieItem
  prev_page : Option String
  next_page : Option String
  total_pages : Nat
  total_items : Nat
  deriving DecidableEq, Repr

/-- Failures of the list route: FastAPI query validation (422) and the two
HTTPException 404 branches. -/
inductive ListErr
  | validation422
  | http404 (detail : String)
  deriving DecidableEq, Repr

/-- The versioned API root from src/config/settings.py. -/
def apiV1Root : String := "/api/v1"

/-- Models Python `str.removeprefix`: drop the leading occurrence when
present, otherwise return the string unchanged. -/
def dropLeading (s p : String) : String :=
  if p.isPrefixOf s then s.drop p.length else s

/-- Models the locator built for an adjacent page:
`path?page=N&per_page=M` from the f-string with `urlencode`. -/
def pageUrl (path : String) (page perPage : Nat) : String :=
  path ++ "?page=" ++ toString page ++ "&per_page=" ++ toString perPage

/-- Embeds the list route (src/routes/movies.py lines 41-80) including the
FastAPI query bounds `page ge 1` and `per_page ge 1 le 100` (violations are
rejected with 422 before the handler runs).  The handler computes
`offset = (page - 1) * per_page` with the 1-based page number, returns 404 for
an empty collection and for an offset at or past the total, and otherwise
builds the page with prev/next locators and
`total_pages = (total + per_page - 1) // per_page`. -/
def list_movies (requestPath : String) (page perPage : Nat) (db : DB) :
    Except ListErr MovieListResponse :=
  if page < 1 ∨ perPage < 1 ∨ 100 < perPage then Except.error ListErr.validation422 else
  let off := (page - 1) * perPage
  let pageResult := get_movies_page db off perPage
  let total := pageResult.2
  if total = 0 then Except.error (ListErr.http404 "No movies found")
  else if off ≥ total ∧ 0 < total then Except.error (ListErr.http404 "Movie page not found")
  else
    let path := dropLeading requestPath apiV1Root
    Except.ok
      { movies := pageResult.1.map toMovieItem
        prev_page := if 1 < page then some (pageUrl path (page - 1) perPage) else none
        next_page := if off + perPage < total then some (pageUrl path (page + 1) perPage) else none
        total_pages := (total + perPage - 1) / perPage
        total_items := total }

/-- The body of `CountryResponseSchema` (src/schemas/movies.py lines 7-13):
`code` is declared `str`, required and non-null. -/
structure CountryResp where
  id : Nat
  code : String
  name : Option String
  deriving DecidableEq, Repr

/-- The body of `NamedEntityResponseSchema` (src/schemas/movies.py lines 16-21). -/
structure NamedResp where
  id : Nat
  name : String
  deriving DecidableEq, Repr

/-- The body of `MovieDetailSchema` (src/schemas/movies.py lines 94-109):
`country` is declared `CountryResponseSchema`, required and non-null. -/
structure MovieDetail where
  id : Nat
  name : String
  date : Int
  score : Rat
  overview : String
  status : MovieStatus
  budget : Rat
  revenue : Rat
  country : CountryResp
  genres : List NamedResp
  actors : List NamedResp
  languages : List NamedResp
  deriving DecidableEq, Repr

/-- Find a country row by id (the ORM resolves `movie.country` through the
foreign key). -/
def lookupCountry (db : DB) (cid : Nat) : Option CountryRow :=
  db.countries.find? (fun r => r.id == cid)

/-- Find a named lookup row by id. -/
def lookupNamed (table : List NamedRow) (nid : Nat) : Option NamedRow :=
  table.find? (fun r => r.id == nid)

/-- Embeds the construction of `MovieDetailSchema` inside the GET detail route
(src/routes/movies.py lines 113-130).  The country argument is
`CountryResponseSchema(...) if movie.country else None`, and `MovieDetailSchema`
declares `country: CountryResponseSchema` with no None alternative, so pydantic
raises ValidationError for a movie without a country reference; likewise
`CountryResponseSchema` declares `code: str`, so a null stored code fails. -/
def buildMovieDetail (db : DB) (m : Movie) : Except PyErr MovieDetail :=
  match m.countryId with
  | none =>
    Except.error (PyErr.validationError "country: value is not a valid CountryResponseSchema")
  | some cid =>
    match lookupCountry db cid with
    | none =>
      Except.error (PyErr.validationError "country: value is not a valid CountryResponseSchema")
    | some c =>
      match c.code with
      | none => Except.error (PyErr.validationError "country.code: value is not a valid string")
      | some code =>
        Except.ok
          { id := m.id, name := m.name, date := m.date, score := m.score
            overview := m.overview, status := m.status, budget := m.budget
            revenue := m.revenue
            country := ⟨c.id, code, c.name⟩
            genres := (m.genreIds.filterMap (lookupNamed db.genres)).map (fun r => ⟨r.id, r.name⟩)
            actors := (m.actorIds.filterMap (lookupNamed db.actors)).map (fun r => ⟨r.id, r.name⟩)
            languages := (m.languageIds.filterMap (lookupNamed db.languages)).map
              (fun r => ⟨r.id, r.name⟩) }

/-- Failures of the GET detail route as observed by the client: the handled
404 mapping and the unhandled generic server error. -/
inductive GetErr
  | notFound404
  | serverError500
  deriving DecidableEq, Repr

/-- Embeds the GET detail route (src/routes/movies.py lines 106-135):
`MovieNotFoundException` is caught and mapped to 404; a pydantic
ValidationError raised while building the response is not caught by any
handler of the route and surfaces as a generic server error. -/
def get_movie_route (movieId : Nat) (db : DB) : Except GetErr MovieDetail :=
  match get_movie_by_id movieId db with
  | Except.error _ => Except.error GetErr.notFound404
  | Except.ok m =>
    match buildMovieDetail db m with
    | Except.error _ => Except.error GetErr.serverError500
    | Except.ok d => Except.ok d

/-- One field of an inbound JSON update payload: absent from the payload,
present with value null, or present with a value. -/
inductive FieldVal (α : Type)
  | absent
  | null
  | val (a : α)
  deriving DecidableEq, Repr

/-- Inbound JSON body for the PATCH route, one slot per field of
`MovieUpdateSchema`. -/
structure UpdatePayloadIn where
  name : FieldVal String
  date : FieldVal Int
  score : FieldVal Rat
  overview : FieldVal String
  status : FieldVal MovieStatus
  budget : FieldVal Rat
  revenue : FieldVal Rat
  country : FieldVal String
  genres : FieldVal (List String)
  actors : FieldVal (List String)
  languages : FieldVal (List String)
  deriving DecidableEq, Repr

/-- A validated `MovieUpdateSchema` object: every field holds either a value
or None. -/
structure MovieUpdateValues where
  name : Option String
  date : Option Int
  score : Option Rat
  overview : Option String
  status : Option MovieStatus
  budget : Option Rat
  revenue : Option Rat
  country : Option String
  genres : Option (List String)
  actors : Option (List String)
  languages : Option (List String)
  deriving DecidableEq, Repr

/-- Validation of one field declared with an explicit default
(`Field(None, ...)` in pydantic): it may be absent, may be null, and a value
must satisfy the constraint. -/
def checkDefaulted {α : Type} (constraintOk : α → Bool) (label : String) :
    FieldVal α → Except PyErr (Option α)
  | FieldVal.absent => Except.ok none
  | FieldVal.null => Except.ok none
  | FieldVal.val a =>
    if constraintOk a then Except.ok (some a)
    else Except.error (PyErr.validationError ("invalid value: " ++ label))

/-- Validation of one field annotated `T | None` without a default (pydantic
v2 treats it as required): absence is an error, null is accepted, and a value
must satisfy the constraint. -/
def checkRequired {α : Type} (constraintOk : α → Bool) (label : String) :
    FieldVal α → Except PyErr (Option α)
  | FieldVal.absent => Except.error (PyErr.validationError ("field required: " ++ label))
  | FieldVal.null => Except.ok none
  | FieldVal.val a =>
    if constraintOk a then Except.ok (some a)
    else Except.error (PyErr.validationError ("invalid value: " ++ label))

/-- Embeds `MovieUpdateSchema` (src/schemas/movies.py lines 67-91) under
pydantic v2 semantics.  Only name, score, budget and revenue carry
`Field(None, ...)` and so have a default; date, overview, status, country,
genres, actors and languages are annotated `T | None` with no default and must
be present (null is allowed).  Constraints: name length 1-255, score 0-100,
budget and revenue nonnegative, date at most today plus 365 days (the
validator passes None through); the update schema puts no length bound on
country. -/
def validateUpdate (today : Int) (p : UpdatePayloadIn) : Except PyErr MovieUpdateValues :=
  match checkDefaulted (fun s => 1 ≤ s.length && s.length ≤ 255) "name" p.name with
  | Except.error e => Except.error e
  | Except.ok name =>
  match checkRequired (fun d => d ≤ today + 365) "date" p.date with
  | Except.error e => Except.error e
  | Except.ok date =>
  match checkDefaulted (fun q => 0 ≤ q && q ≤ 100) "score" p.score with
  | Except.error e => Except.error e
  | Except.ok score =>
  match checkRequired (fun _ => true) "overview" p.overview with
  | Except.error e => Except.error e
  | Except.ok overview =>
  match checkRequired (fun _ => true) "status" p.status with
  | Except.error e => Except.error e
  | Except.ok status =>
  match checkDefaulted (fun q => 0 ≤ q) "budget" p.budget with
  | Except.error e => Except.error e
  | Except.ok budget =>
  match checkDefaulted (fun q => 0 ≤ q) "revenue" p.revenue with
  | Except.error e => Except.error e
  | Except.ok revenue =>
  match checkRequired (fun _ => true) "country" p.country with
  | Except.error e => Except.error e
  | Except.ok country =>
  match checkRequired (fun _ => true) "genres" p.genres with
  | Except.error e => Except.error e
  | Except.ok genres =>
  match checkRequired (fun _ => true) "actors" p.actors with
  | Except.error e => Except.error e
  | Except.ok actors =>
  match checkRequired (fun _ => true) "languages" p.languages with
  | Except.error e => Except.error e
  | Except.ok languages =>
    Except.ok { name, date, score, overview, status, budget, revenue,
                country, genres, actors, languages }

/-- Failures of the PATCH route as observed by the client. -/
inductive PatchErr
  | validation422
  | notFound404
  | serverError500
  deriving DecidableEq, Repr

/-- Embeds the PATCH route (src/routes/movies.py lines 138-159).  FastAPI
validates the body against `MovieUpdateSchema`; the route then passes the
schema object itself, not a dict, to crud `update_movie`, whose loop evaluates
`movie_data.items()`.  A pydantic model has no `items` attribute, so after
`get_movie_by_id` succeeds an AttributeError escapes (only ValidationError and
MovieNotFoundException are caught) and surfaces as a generic server error;
when the movie is absent, `MovieNotFoundException` is raised first and maps to
404. -/
def update_movie_route (movieId : Nat) (today : Int) (body : UpdatePayloadIn) (db : DB) :
    Except PatchErr MovieUpdateValues :=
  match validateUpdate today body with
  | Except.error _ => Except.error PatchErr.validation422
  | Except.ok _ =>
    match get_movie_by_id movieId db with
    | Except.error _ => Except.error PatchErr.notFound404
    | Except.ok _ => Except.error PatchErr.serverError500

/-- Observer: the number of items in a successful list response. -/
def okMoviesLen : Except ListErr MovieListResponse → Option Nat
  | Except.ok r => some r.movies.length
  | Except.error _ => none

/-- Observer: whether a successful list response carries a next-page locator. -/
def okNextPresent : Except ListErr MovieListResponse → Option Bool
  | Except.ok r => some r.next_page.isSome
  | Except.error _ => none

/-- Observer: whether a successful list response carries a previous-page locator. -/
def okPrevPresent : Except ListErr MovieListResponse → Option Bool
  | Except.ok r => some r.prev_page.isSome
  | Except.error _ => none

/-- Observer: whether the list route answered 404. -/
def is404 : Except ListErr MovieListResponse → Bool
  | Except.error (ListErr.http404 _) => true
  | _ => false

/-- Observer: whether the list route answered 200. -/
def isOkList : Except ListErr MovieListResponse → Bool
  | Except.ok _ => true
  | Except.error _ => false

/-- Observer: whether a crud call raised `MovieAlreadyExistsException`. -/
def isAlreadyExists : Except PyErr (Movie × DB) → Bool
  | Except.error (PyErr.movieAlreadyExists _) => true
  | _ => false

/-- Observer: the codes of all persisted country rows after an update call. -/
def okCountryCodes : Except PyErr (Movie × DB) → Option (List (Option String))
  | Except.ok p => some (p.2.countries.map (fun c => c.code))
  | Except.error _ => none

/-- Observer: the commit counter after an update call. -/
def okCommits : Except PyErr (Movie × DB) → Option Nat
  | Except.ok p => some p.2.commits
  | Except.error _ => none

/-- A plain movie row with the given id and no related entities. -/
def mkMovie (i : Nat) : Movie :=
  { id := i, name := "M", date := 0, score := 0, overview := ""
    status := MovieStatus.released, budget := 0, revenue := 0
    countryId := none, genreIds := [], actorIds := [], languageIds := [] }

/-- The empty store. -/
def dbEmpty : DB :=
  { movies := [], countries := [], genres := [], actors := [], languages := []
    nextId := 1, commits := 0 }

/-- A store holding exactly 25 movies with ids 1 to 25. -/
def db25 : DB :=
  { dbEmpty with movies := (List.range 25).map (fun i => mkMovie (i + 1)), nextId := 26 }

/-- The request path of the mounted list route
(`/api/v1/theater/movies/` from src/main.py). -/
def listPath : String := "/api/v1/theater/movies/"

/-- The concrete page behavior on 25 movies with page size 10 under the code's
1-based numbering: page 1 holds 10 items with a next and no previous locator,
page 3 holds 5 items with a previous and no next locator, page 4 is 404. -/
def pageExamples25 : Prop :=
  okMoviesLen (list_movies listPath 1 10 db25) = some 10
  ∧ okNextPresent (list_movies listPath 1 10 db25) = some true
  ∧ okPrevPresent (list_movies listPath 1 10 db25) = some false
  ∧ okMoviesLen (list_movies listPath 3 10 db25) = some 5
  ∧ okNextPresent (list_movies listPath 3 10 db25) = some false
  ∧ okPrevPresent (list_movies listPath 3 10 db25) = some true
  ∧ list_movies listPath 4 10 db25 = Except.error (ListErr.http404 "Movie page not found")

/-- A valid create payload whose name/date pair is fresh. -/
def inceptionPayload : MovieCreatePayload :=
  { name := "Inception", date := 100, score := 87, overview := "Dreams"
    status := MovieStatus.released, budget := 160000000, revenue := 825000000
    country := some "US", genres := ["Action"], actors := ["Leo"]
    languages := ["English"] }

/-- A store already holding a movie with the name and date of
`inceptionPayload`. -/
def dbInception : DB :=
  { dbEmpty with
      movies := [{ mkMovie 1 with name := "Inception", date := 100 }], nextId := 2 }

/-- A store holding one plain movie with id 1. -/
def dbOneMovie : DB :=
  { dbEmpty with movies := [mkMovie 1], nextId := 2 }

/-- The update payload with every field present and null. -/
def nullsPayload : UpdatePayloadIn :=
  { name := FieldVal.null, date := FieldVal.null, score := FieldVal.null
    overview := FieldVal.null, status := FieldVal.null, budget := FieldVal.null
    revenue := FieldVal.null, country := FieldVal.null, genres := FieldVal.null
    actors := FieldVal.null, languages := FieldVal.null }

/-- The update payload with every field absent (the empty JSON body). -/
def allAbsentPayload : UpdatePayloadIn :=
  { name := FieldVal.absent, date := FieldVal.absent, score := FieldVal.absent
    overview := FieldVal.absent, status := FieldVal.absent, budget := FieldVal.absent
    revenue := FieldVal.absent, country := FieldVal.absent, genres := FieldVal.absent
    actors := FieldVal.absent, languages := FieldVal.absent }

/-- The update payload whose fields are all null except the selected one,
which is absent. -/
def absentAt (k : UKey) : UpdatePayloadIn :=
  match k with
  | UKey.name => { nullsPayload with name := FieldVal.absent }
  | UKey.date => { nullsPayload with date := FieldVal.absent }
  | UKey.score => { nullsPayload with score := FieldVal.absent }
  | UKey.overview => { nullsPayload with overview := FieldVal.absent }
  | UKey.status => { nullsPayload with status := FieldVal.absent }
  | UKey.budget => { nullsPayload with budget := FieldVal.absent }
  | UKey.revenue => { nullsPayload with revenue := FieldVal.absent }
  | UKey.country => { nullsPayload with country := FieldVal.absent }
  | UKey.genres => { nullsPayload with genres := FieldVal.absent }
  | UKey.actors => { nullsPayload with actors := FieldVal.absent }
  | UKey.languages => { nullsPayload with languages := FieldVal.absent }

/-- The validated update object with every field None. -/
def allNoneValues : MovieUpdateValues :=
  { name := none, date := none, score := none, overview := none, status := none
    budget := none, revenue := none, country := none, genres := none
    actors := none, languages := none }

/-- The update payload that sets country to the 1-character string X and
leaves every other field null. -/
def countryXPayload : UpdatePayloadIn :=
  { nullsPayload with country := FieldVal.val "X" }

/-- A movie tagged with the genres Action (id 1) and Comedy (id 2). -/
def movieAC : Movie :=
  { mkMovie 10 with genreIds := [1, 2] }

/-- A store holding `movieAC` together with the Action and Comedy genre rows. -/
def dbAC : DB :=
  { dbEmpty with
      movies := [movieAC]
      genres := [⟨1, "Action"⟩, ⟨2, "Comedy"⟩]
      nextId := 3 }

/-- The movie of `dbAC` after its genre set is replaced by the freshly created
Drama row (id 3). -/
def movieDrama : Movie :=
  { movieAC with genreIds := [3] }

/-- The country row created by resolving the code US against the empty store. -/
def usRow : CountryRow := ⟨1, some "US", none⟩

/-- The store after resolving the code US against the empty store once. -/
def dbUS : DB :=
  { dbEmpty with countries := [usRow], nextId := 2 }

/-- A movie (id 7) referencing the country row US, the genre row Action, the
actor row Leo and the language row English. -/
def movieRef : Movie :=
  { mkMovie 7 with
      countryId := some 1
      genreIds := [2]
      actorIds := [3]
      languageIds := [4] }

/-- A store holding a movie (id 7) that references the country row US, the
genre row Action, the actor row Leo and the language row English. -/
def dbRef : DB :=
  { movies := [movieRef]
    countries := [⟨1, some "US", none⟩]
    genres := [⟨2, "Action"⟩]
    actors := [⟨3, "Leo"⟩]
    languages := [⟨4, "English"⟩]
    nextId := 8, commits := 0 }

/-- The store obtained from a store by deleting one movie row and committing,
the state crud `delete_movie` leaves behind. -/
def afterDelete (m : Movie) (db : DB) : DB :=
  { db with movies := db.movies.filter (fun x => x.id != m.id),
            commits := db.commits + 1 }

theorem pageExamples25_holds : pageExamples25 := by
  unfold pageExamples25
  exact ⟨rfl, rfl, rfl, rfl, rfl, rfl, rfl⟩

/-- C1 (counterexample): the code's pages are 1-based, not 0-based.  On a
store of exactly 25 movies with per_page = 10, page 0 is rejected by query
validation instead of returning 10 items, and page 3 succeeds with 5 items
instead of failing with PageNotFound. -/
theorem c1_counterexample_pages_are_one_based :
    list_movies listPath 0 10 db25 = Except.error ListErr.validation422
    ∧ okMoviesLen (list_movies listPath 3 10 db25) = some 5
    ∧ is404 (list_movies listPath 3 10 db25) = false :=
  ⟨rfl, rfl, rfl⟩

/-- C2 (code bug): a valid create payload whose name/date pair is absent from
the store does not yield a created movie.  The first statement of crud
`create_movie` accesses `.scalar_one_or_none` on the un-awaited coroutine
returned by `db.execute`, so the call raises AttributeError — a failure the
route does not map — and nothing is persisted. -/
theorem c2_create_never_succeeds :
    validCreatePayload 0 inceptionPayload = true
    ∧ dbEmpty.movies.filter
        (fun m => m.name == inceptionPayload.name && m.date == inceptionPayload.date) = []
    ∧ create_movie inceptionPayload dbEmpty
        = Except.error (PyErr.attributeError
            "coroutine object has no attribute scalar_one_or_none") :=
  ⟨rfl, rfl, rfl⟩

/-- C6 (code bug): with a movie of the same name and date already stored, a
second create call does not fail with AlreadyExists: like every create call it
raises AttributeError on its first statement, before the duplicate check. -/
theorem c6_duplicate_create_raises_attribute_error :
    (dbInception.movies.filter
        (fun m => m.name == inceptionPayload.name && m.date == inceptionPayload.date)).length = 1
    ∧ create_movie inceptionPayload dbInception
        = Except.error (PyErr.attributeError
            "coroutine object has no attribute scalar_one_or_none")
    ∧ isAlreadyExists (create_movie inceptionPayload dbInception) = false :=
  ⟨rfl, rfl, rfl⟩

/-- C9 (code bug): the update path persists a Country row whose code has
length 1: `MovieUpdateSchema` places no length bound on country, the payload
with country X passes validation, and the crud update resolves and commits a
Country row with code X, violating the 2-to-5 character invariant. -/
theorem c9_update_persists_short_country_code :
    validateUpdate 0 countryXPayload
      = Except.ok { allNoneValues with country := some "X" }
    ∧ okCountryCodes (update_movie 1 [(UKey.country, UVal.str "X")] dbOneMovie)
      = some [some "X"]
    ∧ okCommits (update_movie 1 [(UKey.country, UVal.str "X")] dbOneMovie) = some 1
    ∧ "X".length = 1 :=
  ⟨rfl, rfl, rfl, rfl⟩

/-- C3 (counterexample): the update payload does not make every field
optional — the empty body is rejected because date (among others) is required
— and a present-but-null value for the non-nullable name attribute passes
validation and is silently skipped by the crud update, leaving the attribute
unchanged, instead of being rejected as InvalidInput. -/
theorem c3_counterexample_required_fields_and_silent_null :
    validateUpdate 0 allAbsentPayload
      = Except.error (PyErr.validationError "field required: date")
    ∧ validateUpdate 0 nullsPayload = Except.ok allNoneValues
    ∧ update_movie 1 [(UKey.name, UVal.null)] dbOneMovie
      = Except.ok (mkMovie 1, commitMovie (mkMovie 1) dbOneMovie)
    ∧ (mkMovie 1).name = "M" :=
  ⟨rfl, rfl, rfl, rfl⟩

theorem ceil_div_bounds (L pp : Nat) (hpp : 1 ≤ pp) :
    L ≤ ((L + pp - 1) / pp) * pp ∧ ((L + pp - 1) / pp) * pp < L + pp := by
  have hdm := Nat.div_add_mod (L + pp - 1) pp
  have hmlt : (L + pp - 1) % pp < pp := Nat.mod_lt _ (by omega)
  have hcomm : ((L + pp - 1) / pp) * pp = pp * ((L + pp - 1) / pp) := Nat.mul_comm _ _
  rw [hcomm]
  generalize hR : (L + pp - 1) % pp = R at hdm hmlt
  generalize hP : pp * ((L + pp - 1) / pp) = P at hdm ⊢
  omega

/-- C7: with valid query parameters the list route fails with 404 exactly when
the computed offset (page - 1) * per_page reaches the total row count on a
non-empty collection, or the collection is empty; in every other case it
returns the page with 200 — an out-of-range page on a non-empty collection is
an error, never an empty result. -/
theorem c7_page_not_found_iff (requestPath : String) (page perPage : Nat) (db : DB)
    (hp : 1 ≤ page) (h1 : 1 ≤ perPage) (h2 : perPage ≤ 100) :
    (is404 (list_movies requestPath page perPage db) = true
      ↔ (db.movies.length = 0
          ∨ ((page - 1) * perPage ≥ db.movies.length ∧ 0 < db.movies.length)))
    ∧ (isOkList (list_movies requestPath page perPage db) = true
      ↔ ¬(db.movies.length = 0
          ∨ ((page - 1) * perPage ≥ db.movies.length ∧ 0 < db.movies.length))) := by
  have hv : ¬(page < 1 ∨ perPage < 1 ∨ 100 < perPage) := by omega
  unfold list_movies
  rw [if_neg hv]
  simp only [get_movies_page]
  by_cases h0 : db.movies.length = 0
  · rw [if_pos h0]
    simp [is404, isOkList, h0]
  · rw [if_neg h0]
    by_cases hoff : (page - 1) * perPage ≥ db.movies.length ∧ 0 < db.movies.length
    · rw [if_pos hoff]
      simp [is404, isOkList, h0, hoff]
    · rw [if_neg hoff]
      simp [is404, isOkList, h0, hoff]

/-- Witness for the 404 characterization at page 1, per_page 10 on the
25-movie store (both conditions false: the request succeeds). -/
theorem c7_page_not_found_iff_witness :
    (is404 (list_movies listPath 1 10 db25) = true
      ↔ (db25.movies.length = 0
          ∨ ((1 - 1) * 10 ≥ db25.movies.length ∧ 0 < db25.movies.length)))
    ∧ (isOkList (list_movies listPath 1 10 db25) = true
      ↔ ¬(db25.movies.length = 0
          ∨ ((1 - 1) * 10 ≥ db25.movies.length ∧ 0 < db25.movies.length))) :=
  c7_page_not_found_iff listPath 1 10 db25 (by decide) (by decide) (by decide)

/-- C1 (amended): pagination is 1-based.  Every successful list response
returns the window of the id-sorted movies starting at offset
(page - 1) * per_page of size at most per_page, reports the store size as
total_items, and reports total_pages as the ceiling of total_items over
per_page (stated as the two bounding inequalities); on 25 movies with
per_page 10, page 1 returns 10 items with a next and no previous locator,
page 3 returns 5 items with a previous and no next locator, and page 4 fails
with PageNotFound. -/
theorem c1_amended_one_based_pagination (requestPath : String) (page perPage : Nat)
    (db : DB) (resp : MovieListResponse)
    (hok : list_movies requestPath page perPage db = Except.ok resp) :
    resp.movies
      = (((sortById db.movies).drop ((page - 1) * perPage)).take perPage).map toMovieItem
    ∧ resp.total_items = db.movies.length
    ∧ resp.total_pages = (db.movies.length + perPage - 1) / perPage
    ∧ resp.total_items ≤ resp.total_pages * perPage
    ∧ resp.total_pages * perPage < resp.total_items + perPage
    ∧ pageExamples25 := by
  unfold list_movies at hok
  by_cases hv : page < 1 ∨ perPage < 1 ∨ 100 < perPage
  · rw [if_pos hv] at hok
    cases hok
  · rw [if_neg hv] at hok
    simp only [get_movies_page] at hok
    have hpp : 1 ≤ perPage := by omega
    by_cases h0 : db.movies.length = 0
    · rw [if_pos h0] at hok
      cases hok
    · rw [if_neg h0] at hok
      by_cases hoff : (page - 1) * perPage ≥ db.movies.length ∧ 0 < db.movies.length
      · rw [if_pos hoff] at hok
        cases hok
      · rw [if_neg hoff] at hok
        cases hok
        refine ⟨rfl, rfl, rfl, ?_, ?_, pageExamples25_holds⟩
        · exact (ceil_div_bounds db.movies.length perPage hpp).1
        · exact (ceil_div_bounds db.movies.length perPage hpp).2

/-- Witness for the amended pagination theorem at page 3, per_page 10 on the
25-movie store. -/
theorem c1_amended_one_based_pagination_witness :
    okMoviesLen (list_movies listPath 3 10 db25) = some 5 ∧ pageExamples25 := by
  cases hok : list_movies listPath 3 10 db25 with
  | error e =>
    have hx : isOkList (list_movies listPath 3 10 db25) = true := rfl
    rw [hok] at hx
    simp [isOkList] at hx
  | ok resp =>
    have h := c1_amended_one_based_pagination listPath 3 10 db25 resp hok
    refine ⟨?_, h.2.2.2.2.2⟩
    simp only [okMoviesLen]
    rw [h.1]
    rfl

theorem getOrCreateNamed_repeat (table : List NamedRow) (nid : Nat) (key : String)
    (r : NamedRow) (t : List NamedRow) (n : Nat)
    (h : getOrCreateNamed table nid key = Except.ok (r, t, n)) :
    getOrCreateNamed t n key = Except.ok (r, t, n)
    ∧ t.length ≤ table.length + 1
    ∧ (table.filter (fun x => x.name == key) = [] →
        r = ⟨nid, key⟩ ∧ t = table ++ [r] ∧ n = nid + 1) := by
  unfold getOrCreateNamed at h ⊢
  rcases hf : table.filter (fun x => x.name == key) with _ | ⟨r0, _ | ⟨r1, rest⟩⟩
  · rw [hf] at h
    injection h with h1
    injection h1 with ha hb
    injection hb with hb1 hb2
    subst ha hb1 hb2
    have hone : (table ++ [(⟨nid, key⟩ : NamedRow)]).filter (fun x => x.name == key)
        = [⟨nid, key⟩] := by
      rw [List.filter_append, hf]
      simp
    rw [hone]
    refine ⟨rfl, by simp, fun _ => ⟨rfl, rfl, rfl⟩⟩
  · rw [hf] at h
    injection h with h1
    injection h1 with ha hb
    injection hb with hb1 hb2
    subst ha hb1 hb2
    rw [hf]
    refine ⟨rfl, by omega, fun hc => ?_⟩
    exact (List.cons_ne_nil _ _ hc).elim
  · rw [hf] at h
    cases h

theorem getOrCreateCountry_repeat (table : List CountryRow) (nid : Nat)
    (code : Option String) (r : CountryRow) (t : List CountryRow) (n : Nat)
    (h : getOrCreateCountry table nid code = Except.ok (r, t, n)) :
    getOrCreateCountry t n code = Except.ok (r, t, n)
    ∧ t.length ≤ table.length + 1
    ∧ (table.filter (fun x => x.code == code) = [] →
        r = ⟨nid, code, none⟩ ∧ t = table ++ [r] ∧ n = nid + 1) := by
  unfold getOrCreateCountry at h ⊢
  rcases hf : table.filter (fun x => x.code == code) with _ | ⟨r0, _ | ⟨r1, rest⟩⟩
  · rw [hf] at h
    injection h with h1
    injection h1 with ha hb
    injection hb with hb1 hb2
    subst ha hb1 hb2
    have hone : (table ++ [(⟨nid, code, none⟩ : CountryRow)]).filter (fun x => x.code == code)
        = [⟨nid, code, none⟩] := by
      rw [List.filter_append, hf]
      simp
    rw [hone]
    refine ⟨rfl, by simp, fun _ => ⟨rfl, rfl, rfl⟩⟩
  · rw [hf] at h
    injection h with h1
    injection h1 with ha hb
    injection hb with hb1 hb2
    subst ha hb1 hb2
    rw [hf]
    refine ⟨rfl, by omega, fun hc => ?_⟩
    exact (List.cons_ne_nil _ _ hc).elim
  · rw [hf] at h
    cases h

/-- C5: for every lookup entity kind, resolving the same key twice through
the Reconciler returns the same row identity and the same store state, and
creates at most one row in total: an absent key yields a fresh row carrying
exactly the key fields, appended and immediately visible in the same unit of
work, with the commit counter (and the movies table) untouched; the second
resolution finds that row and performs no insert. -/
theorem c5_reconciler_idempotent (db db1 : DB) :
    (∀ code r, resolveCountry db code = Except.ok (r, db1) →
      resolveCountry db1 code = Except.ok (r, db1)
      ∧ db1.countries.length ≤ db.countries.length + 1
      ∧ db1.movies = db.movies ∧ db1.commits = db.commits
      ∧ (db.countries.filter (fun x => x.code == code) = [] →
          r = ⟨db.nextId, code, none⟩ ∧ db1.countries = db.countries ++ [r]))
    ∧ (∀ key r, resolveGenre db key = Except.ok (r, db1) →
      resolveGenre db1 key = Except.ok (r, db1)
      ∧ db1.genres.length ≤ db.genres.length + 1
      ∧ db1.movies = db.movies ∧ db1.commits = db.commits
      ∧ (db.genres.filter (fun x => x.name == key) = [] →
          r = ⟨db.nextId, key⟩ ∧ db1.genres = db.genres ++ [r]))
    ∧ (∀ key r, resolveActor db key = Except.ok (r, db1) →
      resolveActor db1 key = Except.ok (r, db1)
      ∧ db1.actors.length ≤ db.actors.length + 1
      ∧ db1.movies = db.movies ∧ db1.commits = db.commits
      ∧ (db.actors.filter (fun x => x.name == key) = [] →
          r = ⟨db.nextId, key⟩ ∧ db1.actors = db.actors ++ [r]))
    ∧ (∀ key r, resolveLanguage db key = Except.ok (r, db1) →
      resolveLanguage db1 key = Except.ok (r, db1)
      ∧ db1.languages.length ≤ db.languages.length + 1
      ∧ db1.movies = db.movies ∧ db1.commits = db.commits
      ∧ (db.languages.filter (fun x => x.name == key) = [] →
          r = ⟨db.nextId, key⟩ ∧ db1.languages = db.languages ++ [r])) := by
  refine ⟨?_, ?_, ?_, ?_⟩
  · intro code r h
    unfold resolveCountry at h ⊢
    rcases hg : getOrCreateCountry db.countries db.nextId code with e | ⟨r2, t, n⟩
    · rw [hg] at h
      cases h
    · rw [hg] at h
      injection h with h1
      injection h1 with ha hb
      subst ha
      cases hb
      obtain ⟨hrep, hlen, hnew⟩ := getOrCreateCountry_repeat _ _ _ _ _ _ hg
      rw [hrep]
      exact ⟨rfl, hlen, rfl, rfl, fun hc => ⟨(hnew hc).1, (hnew hc).2.1⟩⟩
  · intro key r h
    unfold resolveGenre at h ⊢
    rcases hg : getOrCreateNamed db.genres db.nextId key with e | ⟨r2, t, n⟩
    · rw [hg] at h
      cases h
    · rw [hg] at h
      injection h with h1
      injection h1 with ha hb
      subst ha
      cases hb
      obtain ⟨hrep, hlen, hnew⟩ := getOrCreateNamed_repeat _ _ _ _ _ _ hg
      rw [hrep]
      exact ⟨rfl, hlen, rfl, rfl, fun hc => ⟨(hnew hc).1, (hnew hc).2.1⟩⟩
  · intro key r h
    unfold resolveActor at h ⊢
    rcases hg : getOrCreateNamed db.actors db.nextId key with e | ⟨r2, t, n⟩
    · rw [hg] at h
      cases h
    · rw [hg] at h
      injection h with h1
      injection h1 with ha hb
      subst ha
      cases hb
      obtain ⟨hrep, hlen, hnew⟩ := getOrCreateNamed_repeat _ _ _ _ _ _ hg
      rw [hrep]
      exact ⟨rfl, hlen, rfl, rfl, fun hc => ⟨(hnew hc).1, (hnew hc).2.1⟩⟩
  · intro key r h
    unfold resolveLanguage at h ⊢
    rcases hg : getOrCreateNamed db.languages db.nextId key with e | ⟨r2, t, n⟩
    · rw [hg] at h
      cases h
    · rw [hg] at h
      injection h with h1
      injection h1 with ha hb
      subst ha
      cases hb
      obtain ⟨hrep, hlen, hnew⟩ := getOrCreateNamed_repeat _ _ _ _ _ _ hg
      rw [hrep]
      exact ⟨rfl, hlen, rfl, rfl, fun hc => ⟨(hnew hc).1, (hnew hc).2.1⟩⟩

/-- Witness: resolving the country code US twice against the empty store
creates exactly one row and returns it both times, without a commit. -/
theorem c5_reconciler_idempotent_witness :
    resolveCountry dbEmpty (some "US") = Except.ok (usRow, dbUS)
    ∧ resolveCountry dbUS (some "US") = Except.ok (usRow, dbUS)
    ∧ dbUS.commits = dbEmpty.commits
    ∧ dbUS.countries.length = 1 := by
  have h := (c5_reconciler_idempotent dbEmpty dbUS).1 (some "US") usRow rfl
  exact ⟨rfl, h.1, h.2.2.2.1, rfl⟩

theorem update_movie_single (movieId : Nat) (k : UKey) (v : UVal) (db : DB)
    (m m1 : Movie) (db1 : DB)
    (hm : get_movie_by_id movieId db = Except.ok m)
    (hstep : updateStep (m, db) (k, v) = Except.ok (m1, db1)) :
    update_movie movieId [(k, v)] db = Except.ok (m1, commitMovie m1 db1) := by
  unfold update_movie
  rw [hm]
  have hfold : List.foldlM updateStep (m, db) [(k, v)] = Except.ok (m1, db1) := by
    simp [List.foldlM, hstep]
  show (match List.foldlM updateStep (m, db) [(k, v)] with
        | Except.error e => Except.error e
        | Except.ok (m2, db2) => Except.ok (m2, commitMovie m2 db2))
      = Except.ok (m1, commitMovie m1 db1)
  rw [hfold]

/-- C4: a crud update whose dict holds a related-entity list field (genres,
actors or languages) with a list of names replaces the whole association set
of that relation with exactly the Reconciler-resolved rows for the given
names, leaving every other attribute of the movie untouched: a full
replacement, not a merge, so a previously attached row omitted from the list
is detached. -/
theorem c4_update_replaces_associations (db : DB) (movieId : Nat) (m : Movie)
    (names : List String)
    (hm : get_movie_by_id movieId db = Except.ok m) :
    (∀ rs t n, resolveNames db.genres db.nextId names = Except.ok (rs, t, n) →
      update_movie movieId [(UKey.genres, UVal.strList names)] db
        = Except.ok ({ m with genreIds := rs.map (fun r => r.id) },
            commitMovie { m with genreIds := rs.map (fun r => r.id) }
              { db with genres := t, nextId := n }))
    ∧ (∀ rs t n, resolveNames db.actors db.nextId names = Except.ok (rs, t, n) →
      update_movie movieId [(UKey.actors, UVal.strList names)] db
        = Except.ok ({ m with actorIds := rs.map (fun r => r.id) },
            commitMovie { m with actorIds := rs.map (fun r => r.id) }
              { db with actors := t, nextId := n }))
    ∧ (∀ rs t n, resolveNames db.languages db.nextId names = Except.ok (rs, t, n) →
      update_movie movieId [(UKey.languages, UVal.strList names)] db
        = Except.ok ({ m with languageIds := rs.map (fun r => r.id) },
            commitMovie { m with languageIds := rs.map (fun r => r.id) }
              { db with languages := t, nextId := n })) := by
  refine ⟨?_, ?_, ?_⟩
  · intro rs t n hr
    refine update_movie_single movieId _ _ db m _ _ hm ?_
    simp only [updateStep]
    rw [hr]
  · intro rs t n hr
    refine update_movie_single movieId _ _ db m _ _ hm ?_
    simp only [updateStep]
    rw [hr]
  · intro rs t n hr
    refine update_movie_single movieId _ _ db m _ _ hm ?_
    simp only [updateStep]
    rw [hr]

/-- Witness: updating the movie tagged Action and Comedy with the genre list
holding only Drama leaves it tagged with exactly the Drama row. -/
theorem c4_update_replaces_associations_witness :
    update_movie 10 [(UKey.genres, UVal.strList ["Drama"])] dbAC
      = Except.ok (movieDrama,
          commitMovie movieDrama
            { dbAC with genres := dbAC.genres ++ [⟨3, "Drama"⟩], nextId := 4 })
    ∧ movieDrama.genreIds = [3] := by
  have h := (c4_update_replaces_associations dbAC 10 movieAC ["Drama"] rfl).1
      [⟨3, "Drama"⟩] (dbAC.genres ++ [(⟨3, "Drama"⟩ : NamedRow)]) 4 rfl
  exact ⟨h, rfl⟩

/-- C8: deleting an existing movie removes the movie row together with its
association ids and commits; a subsequent fetch of the same id fails with
NotFound; every lookup table is untouched, so each natural key still resolves
to the same row identity through the Reconciler. -/
theorem c8_delete_preserves_lookups (db : DB) (movieId : Nat) (m : Movie)
    (hm : get_movie_by_id movieId db = Except.ok m) :
    delete_movie movieId db = Except.ok (afterDelete m db)
    ∧ get_movie_by_id movieId (afterDelete m db)
        = Except.error (PyErr.movieNotFound
            ("Movie with ID " ++ toString movieId ++ " does not exist."))
    ∧ (afterDelete m db).countries = db.countries
    ∧ (afterDelete m db).genres = db.genres
    ∧ (afterDelete m db).actors = db.actors
    ∧ (afterDelete m db).languages = db.languages
    ∧ (∀ code, (resolveCountry (afterDelete m db) code).map Prod.fst
        = (resolveCountry db code).map Prod.fst)
    ∧ (∀ key, (resolveGenre (afterDelete m db) key).map Prod.fst
        = (resolveGenre db key).map Prod.fst)
    ∧ (∀ key, (resolveActor (afterDelete m db) key).map Prod.fst
        = (resolveActor db key).map Prod.fst)
    ∧ (∀ key, (resolveLanguage (afterDelete m db) key).map Prod.fst
        = (resolveLanguage db key).map Prod.fst) := by
  have hid : m.id = movieId := by
    unfold get_movie_by_id at hm
    rcases hf : db.movies.find? (fun x => x.id == movieId) with _ | m0
    · rw [hf] at hm
      cases hm
    · rw [hf] at hm
      injection hm with h1
      subst h1
      have := List.find?_some hf
      simpa using this
  have hnone : (afterDelete m db).movies.find? (fun x => x.id == movieId) = none := by
    apply List.find?_eq_none.mpr
    intro x hx
    have h2 := (List.mem_filter.mp hx).2
    simp only [bne_iff_ne, ne_eq] at h2
    simp only [beq_iff_eq]
    omega
  refine ⟨?_, ?_, rfl, rfl, rfl, rfl, ?_, ?_, ?_, ?_⟩
  · unfold delete_movie
    rw [hm]
    rfl
  · unfold get_movie_by_id
    rw [hnone]
  · intro code
    unfold resolveCountry afterDelete
    dsimp only
    rcases hg : getOrCreateCountry db.countries db.nextId code with e | ⟨r, t, n⟩ <;> rfl
  · intro key
    unfold resolveGenre afterDelete
    dsimp only
    rcases hg : getOrCreateNamed db.genres db.nextId key with e | ⟨r, t, n⟩ <;> rfl
  · intro key
    unfold resolveActor afterDelete
    dsimp only
    rcases hg : getOrCreateNamed db.actors db.nextId key with e | ⟨r, t, n⟩ <;> rfl
  · intro key
    unfold resolveLanguage afterDelete
    dsimp only
    rcases hg : getOrCreateNamed db.languages db.nextId key with e | ⟨r, t, n⟩ <;> rfl

/-- Witness: deleting the movie that references the US, Action, Leo and
English lookup rows leaves those rows in place and they still resolve. -/
theorem c8_delete_preserves_lookups_witness :
    delete_movie 7 dbRef = Except.ok (afterDelete movieRef dbRef)
    ∧ get_movie_by_id 7 (afterDelete movieRef dbRef)
        = Except.error (PyErr.movieNotFound "Movie with ID 7 does not exist.")
    ∧ (afterDelete movieRef dbRef).genres = dbRef.genres
    ∧ (resolveGenre (afterDelete movieRef dbRef) "Action").map Prod.fst
        = (resolveGenre dbRef "Action").map Prod.fst := by
  have h := c8_delete_preserves_lookups dbRef 7 movieRef rfl
  exact ⟨h.1, h.2.1, h.2.2.2.1, h.2.2.2.2.2.2.2.1 "Action"⟩

/-- C10: for an existing movie whose country reference is empty, the GET
detail route does not produce the 200 response: the detail schema requires a
non-null country, building the response fails, and the failure is not mapped
by the route's handlers, surfacing as a generic server error rather than any
status of the error taxonomy. -/
theorem c10_missing_country_unmapped (db : DB) (movieId : Nat) (m : Movie)
    (hm : get_movie_by_id movieId db = Except.ok m) (hc : m.countryId = none) :
    get_movie_route movieId db = Except.error GetErr.serverError500 := by
  unfold get_movie_route
  rw [hm]
  show (match buildMovieDetail db m with
        | Except.error _ => Except.error GetErr.serverError500
        | Except.ok d => Except.ok d) = Except.error GetErr.serverError500
  unfold buildMovieDetail
  rw [hc]

/-- Witness: fetching the stored country-less movie yields the generic server
error. -/
theorem c10_missing_country_unmapped_witness :
    get_movie_route 1 dbOneMovie = Except.error GetErr.serverError500 :=
  c10_missing_country_unmapped dbOneMovie 1 (mkMovie 1) rfl rfl

/-- C3 (amended): in the update payload the fields with an explicit default
(name, score, budget, revenue) are optional, while date, overview, status,
country, genres, actors and languages must be present though they may be
null; and a present-but-null field is not rejected as InvalidInput: the crud
update skips it, leaving the attribute unchanged. -/
theorem c3_amended_optionality_and_null_skip :
    validateUpdate 0 (absentAt UKey.name) = Except.ok allNoneValues
    ∧ validateUpdate 0 (absentAt UKey.score) = Except.ok allNoneValues
    ∧ validateUpdate 0 (absentAt UKey.budget) = Except.ok allNoneValues
    ∧ validateUpdate 0 (absentAt UKey.revenue) = Except.ok allNoneValues
    ∧ validateUpdate 0 (absentAt UKey.date)
        = Except.error (PyErr.validationError "field required: date")
    ∧ validateUpdate 0 (absentAt UKey.overview)
        = Except.error (PyErr.validationError "field required: overview")
    ∧ validateUpdate 0 (absentAt UKey.status)
        = Except.error (PyErr.validationError "field required: status")
    ∧ validateUpdate 0 (absentAt UKey.country)
        = Except.error (PyErr.validationError "field required: country")
    ∧ validateUpdate 0 (absentAt UKey.genres)
        = Except.error (PyErr.validationError "field required: genres")
    ∧ validateUpdate 0 (absentAt UKey.actors)
        = Except.error (PyErr.validationError "field required: actors")
    ∧ validateUpdate 0 (absentAt UKey.languages)
        = Except.error (PyErr.validationError "field required: languages")
    ∧ (∀ movieId db m k, get_movie_by_id movieId db = Except.ok m →
        update_movie movieId [(k, UVal.null)] db = Except.ok (m, commitMovie m db)) := by
  refine ⟨rfl, rfl, rfl, rfl, rfl, rfl, rfl, rfl, rfl, rfl, rfl, ?_⟩
  intro movieId db m k hm
  refine update_movie_single movieId k UVal.null db m m db hm ?_
  cases k <;> rfl

/-- Witness: the payload missing only name validates, and a null date on an
existing movie is skipped, leaving the movie unchanged. -/
theorem c3_amended_optionality_and_null_skip_witness :
    validateUpdate 0 (absentAt UKey.name) = Except.ok allNoneValues
    ∧ update_movie 1 [(UKey.date, UVal.null)] dbOneMovie
        = Except.ok (mkMovie 1, commitMovie (mkMovie 1) dbOneMovie) := by
  have h := c3_amended_optionality_and_null_skip
  exact ⟨h.1, h.2.2.2.2.2.2.2.2.2.2.2 1 dbOneMovie (mkMovie 1) UKey.date rfl⟩

end MovieApp
